import Mathlib

/-!
Shallow embedding of the Congo real-estate backend.

The model follows the two source files:
* the Drizzle schema (tables `listings`, `payments`, `phone_unlocks`,
  and the zod insert schemas built with `createInsertSchema` + `omit`/`extend`);
* `storage.ts` (the `DatabaseStorage` repository and the Express routes).

The relational store is modelled as three lists plus an id counter and a
clock. A SQL `UPDATE ... WHERE ... RETURNING` is modelled as a `map` over
the rows with the returned rows being the matching ones after the update
(`const [x] = ...returning()` picks the first returned row).
-/

namespace Congo

/-- Row of the `listings` table (schema file, `pgTable "listings"`).
`createdAt` timestamps are modelled as naturals. -/
structure Listing where
  id : String
  city : String
  commune : String
  neighborhood : String
  rooms : Int
  propertyType : String
  transactionType : String
  price : Int
  deposit : Option Int
  description : String
  phone : String
  images : List String
  status : String
  paymentStatus : String
  featured : Bool
  createdAt : Nat
deriving Repr, DecidableEq

/-- Row of the `payments` table. The column `type` is a Lean keyword, so it
is called `ptype` here. -/
structure Payment where
  id : String
  listingId : Option String
  ptype : String
  amount : Int
  status : String
  createdAt : Nat
deriving Repr, DecidableEq

/-- Row of the `phone_unlocks` table. -/
structure PhoneUnlock where
  id : String
  listingId : String
  paymentStatus : String
  createdAt : Nat
deriving Repr, DecidableEq

/-- The relational store: the three tables, plus a counter feeding
`gen_random_uuid()` (opaque fresh ids) and the `now()` clock. -/
structure Store where
  listings : List Listing
  payments : List Payment
  phoneUnlocks : List PhoneUnlock
  nextId : Nat
  now : Nat
deriving Repr, DecidableEq

/-- Fresh id generation, standing in for `gen_random_uuid()`. -/
def genId (s : Store) : String := "id-" ++ toString s.nextId

/-- Insertion step for ordering listings newest-created first
(`orderBy(desc(listings.createdAt))`). -/
def insertDesc (l : Listing) : List Listing → List Listing
  | [] => [l]
  | x :: xs => if l.createdAt ≤ x.createdAt then x :: insertDesc l xs else l :: x :: xs

/-- Sort listings by `createdAt` descending, as the `SELECT ... ORDER BY
created_at DESC` queries do. -/
def sortByCreatedAtDesc : List Listing → List Listing
  | [] => []
  | x :: xs => insertDesc x (sortByCreatedAtDesc xs)

/-- `DatabaseStorage.getListing`: first row whose id matches. -/
def getListing (s : Store) (id : String) : Option Listing :=
  (s.listings.filter (fun l => l.id == id)).head?

/-- `DatabaseStorage.getApprovedListings`: rows with `status = "approved"`
and `paymentStatus = "confirmed"`, newest first. -/
def getApprovedListings (s : Store) : List Listing :=
  sortByCreatedAtDesc
    (s.listings.filter (fun l => l.status == "approved" && l.paymentStatus == "confirmed"))

/-- `DatabaseStorage.getPendingListings`. -/
def getPendingListings (s : Store) : List Listing :=
  sortByCreatedAtDesc (s.listings.filter (fun l => l.status == "pending"))

/-- The `UPDATE listings SET status = $1 WHERE id = $2` row transformation. -/
def setListingStatus (id status : String) (ls : List Listing) : List Listing :=
  ls.map fun l => if l.id == id then { l with status := status } else l

/-- `DatabaseStorage.updateListingStatus`: update matching rows and return
the first updated row (or `none` when no row matched). -/
def updateListingStatus (s : Store) (id status : String) : Option Listing × Store :=
  let ls := setListingStatus id status s.listings
  (((ls.filter (fun l => l.id == id)).head?), { s with listings := ls })

/-- The `UPDATE listings SET payment_status = $1 WHERE id = $2` row
transformation. -/
def setListingPaymentStatus (id paymentStatus : String) (ls : List Listing) : List Listing :=
  ls.map fun l => if l.id == id then { l with paymentStatus := paymentStatus } else l

/-- `DatabaseStorage.updateListingPaymentStatus`. -/
def updateListingPaymentStatus (s : Store) (id paymentStatus : String) :
    Option Listing × Store :=
  let ls := setListingPaymentStatus id paymentStatus s.listings
  (((ls.filter (fun l => l.id == id)).head?), { s with listings := ls })

/-- The `WHERE` predicate of `approveAllPendingListings`:
`status = "pending" AND payment_status = "confirmed"`. -/
def pendingConfirmed (l : Listing) : Bool :=
  l.status == "pending" && l.paymentStatus == "confirmed"

/-- `DatabaseStorage.approveAllPendingListings`: bulk update of all rows
matching `pendingConfirmed` to `status = "approved"`, returning the number
of updated rows (`result.length`). -/
def approveAllPendingListings (s : Store) : Nat × Store :=
  let ls := s.listings.map fun l =>
    if pendingConfirmed l then { l with status := "approved" } else l
  ((s.listings.filter pendingConfirmed).length, { s with listings := ls })

/-- `DatabaseStorage.getPayment`. -/
def getPayment (s : Store) (id : String) : Option Payment :=
  (s.payments.filter (fun p => p.id == id)).head?

/-- `DatabaseStorage.updatePaymentStatus`. -/
def updatePaymentStatus (s : Store) (id status : String) : Option Payment × Store :=
  let ps := s.payments.map fun p => if p.id == id then { p with status := status } else p
  (((ps.filter (fun p => p.id == id)).head?), { s with payments := ps })

/-!
Zod insert schemas. A JSON creation payload is modelled with `Option`
fields: `none` means the key is absent. Zod objects use the default
`strip` policy for unknown keys, so the keys removed with `.omit(...)`
(`id`, `status`, `paymentStatus`, `featured`, `createdAt`) are carried in
the payload but never inspected by `parse`.
-/

/-- A raw listing-creation payload as the `insertListingSchema.parse` call
receives it, key by key. -/
structure RawListingPayload where
  city : Option String
  commune : Option String
  neighborhood : Option String
  rooms : Option Int
  propertyType : Option String
  transactionType : Option String
  price : Option Int
  deposit : Option Int
  description : Option String
  phone : Option String
  images : Option (List String)
  id : Option String
  status : Option String
  paymentStatus : Option String
  featured : Option Bool
  createdAt : Option Nat
deriving Repr, DecidableEq

/-- The value `insertListingSchema.parse` returns on success
(`InsertListing`): the caller-supplied columns only. -/
structure InsertListing where
  city : String
  commune : String
  neighborhood : String
  rooms : Int
  propertyType : String
  transactionType : String
  price : Int
  deposit : Option Int
  description : String
  phone : String
  images : List String
deriving Repr, DecidableEq

/-- `insertListingSchema.parse`: `createInsertSchema(listings)` requires
every not-null column without a default to be present (`z.string()` /
`z.number()` — presence only, empty strings pass), `.omit` drops the five
server-assigned keys (zod then strips them from the input silently), and
`.extend` adds `images.min(1)`, `rooms.min(1)`, `price.min(1)`.
Returns `none` on a `ZodError`. -/
def parseInsertListing (p : RawListingPayload) : Option InsertListing := do
  let c ← p.city
  let co ← p.commune
  let ne ← p.neighborhood
  let r ← p.rooms
  let pt ← p.propertyType
  let tt ← p.transactionType
  let pr ← p.price
  let de ← p.description
  let ph ← p.phone
  let im ← p.images
  if 1 ≤ r ∧ 1 ≤ pr ∧ 1 ≤ im.length then
    some { city := c, commune := co, neighborhood := ne, rooms := r, propertyType := pt,
           transactionType := tt, price := pr, deposit := p.deposit, description := de,
           phone := ph, images := im }
  else
    none

/-- Argument of `storage.createPayment` (`InsertPayment` after
`insertPaymentSchema`: `listingId` optional, `type` and `amount`
required). -/
structure InsertPayment where
  listingId : Option String
  ptype : String
  amount : Int
deriving Repr, DecidableEq

/-- A raw phone-unlock payload (`insertPhoneUnlockSchema.parse` input):
`listingId` required, the omitted keys stripped. -/
structure RawUnlockPayload where
  listingId : Option String
  id : Option String
  paymentStatus : Option String
  createdAt : Option Nat
deriving Repr, DecidableEq

/-- `insertPhoneUnlockSchema.parse`: succeeds exactly when `listingId` is
present. -/
def parseInsertPhoneUnlock (p : RawUnlockPayload) : Option String :=
  p.listingId

/-- `DatabaseStorage.createListing`: insert with the column defaults
`status = "pending"`, `paymentStatus = "pending"`, `featured = false`,
`createdAt = now()`, and a generated id; returns the inserted row. -/
def createListing (s : Store) (d : InsertListing) : Listing × Store :=
  let l : Listing :=
    { id := genId s, city := d.city, commune := d.commune, neighborhood := d.neighborhood,
      rooms := d.rooms, propertyType := d.propertyType, transactionType := d.transactionType,
      price := d.price, deposit := d.deposit, description := d.description, phone := d.phone,
      images := d.images, status := "pending", paymentStatus := "pending", featured := false,
      createdAt := s.now }
  (l, { s with listings := s.listings ++ [l], nextId := s.nextId + 1 })

/-- `DatabaseStorage.createPayment`: insert with defaults
`status = "pending"`, `createdAt = now()` and a generated id. -/
def createPayment (s : Store) (d : InsertPayment) : Payment × Store :=
  let p : Payment :=
    { id := genId s, listingId := d.listingId, ptype := d.ptype, amount := d.amount,
      status := "pending", createdAt := s.now }
  (p, { s with payments := s.payments ++ [p], nextId := s.nextId + 1 })

/-- `DatabaseStorage.createPhoneUnlock`: insert with defaults
`paymentStatus = "pending"`, `createdAt = now()` and a generated id. -/
def createPhoneUnlock (s : Store) (lid : String) : PhoneUnlock × Store :=
  let u : PhoneUnlock :=
    { id := genId s, listingId := lid, paymentStatus := "pending", createdAt := s.now }
  (u, { s with phoneUnlocks := s.phoneUnlocks ++ [u], nextId := s.nextId + 1 })

/-!
Request handlers (`registerRoutes` in the routes file).
-/

/-- Outcome of `POST /api/listings`. `serverError` stands for the 500 the
Express error middleware produces when multer rejects more than ten files
(`upload.array("images", 10)`). -/
inductive CreateListingResult where
  | validationError (msg : String)
  | serverError
  | ok (listing : Listing) (payment : Payment)
deriving Repr, DecidableEq

/-- `POST /api/listings`: reject zero files with 400, map each file to an
`/uploads/` path, validate the body with `insertListingSchema`, create the
listing, then create the linked publish payment of amount 1500. The multer
middleware caps the upload at ten files before the handler runs. -/
def apiCreateListing (s : Store) (files : List String) (body : RawListingPayload) :
    CreateListingResult × Store :=
  if 10 < files.length then (.serverError, s)
  else if files.length = 0 then
    (.validationError "Au moins une image est requise", s)
  else
    let imagePaths := files.map (fun f => "/uploads/" ++ f)
    match parseInsertListing { body with images := some imagePaths } with
    | none => (.validationError "validation", s)
    | some d =>
      let (listing, s1) := createListing s d
      let (payment, s2) :=
        createPayment s1 { listingId := some listing.id, ptype := "publish", amount := 1500 }
      (.ok listing payment, s2)

/-- Outcome of `POST /api/phone-unlock`. -/
inductive UnlockResult where
  | validationError
  | ok (unlock : PhoneUnlock) (payment : Payment)
deriving Repr, DecidableEq

/-- `POST /api/phone-unlock`: validate the body, create the `PhoneUnlock`,
then create a standalone unlock payment of amount 2500 with no
`listingId`. -/
def apiPhoneUnlock (s : Store) (body : RawUnlockPayload) : UnlockResult × Store :=
  match parseInsertPhoneUnlock body with
  | none => (.validationError, s)
  | some lid =>
    let (unlock, s1) := createPhoneUnlock s lid
    let (payment, s2) := createPayment s1 { listingId := none, ptype := "unlock", amount := 2500 }
    (.ok unlock payment, s2)

/-- `POST /api/payments/:id/confirm`: set the payment's status to
`"confirmed"` (404 when the id matches no payment); when the updated
payment has a `listingId` and `type === "publish"`, cascade the listing's
`paymentStatus` to `"confirmed"`. -/
def apiConfirmPayment (s : Store) (pid : String) : Option Payment × Store :=
  let (res, s1) := updatePaymentStatus s pid "confirmed"
  match res with
  | none => (none, s1)
  | some p =>
    match p.listingId with
    | some lid =>
      if p.ptype == "publish" then (some p, (updateListingPaymentStatus s1 lid "confirmed").2)
      else (some p, s1)
    | none => (some p, s1)

/-- `POST /api/admin/listings/:id/approve`: `updateListingStatus(id,
"approved")`, 404 when the listing is absent. -/
def apiApproveListing (s : Store) (id : String) : Option Listing × Store :=
  updateListingStatus s id "approved"

/-- `POST /api/admin/listings/:id/reject`: `updateListingStatus(id,
"rejected")`. -/
def apiRejectListing (s : Store) (id : String) : Option Listing × Store :=
  updateListingStatus s id "rejected"

/-- `POST /api/admin/listings/approve-all`. -/
def apiApproveAll (s : Store) : Nat × Store :=
  approveAllPendingListings s

/-!
Concrete fixtures used by witnesses and counterexamples.
-/

/-- A fully populated listing row, approved and payment-confirmed. -/
def sampleListing : Listing :=
  { id := "L1", city := "Kinshasa", commune := "Gombe", neighborhood := "Centre",
    rooms := 3, propertyType := "apartment", transactionType := "rent", price := 50000,
    deposit := none, description := "spacious flat", phone := "+243900000000",
    images := ["/uploads/a.jpg"], status := "approved", paymentStatus := "confirmed",
    featured := false, createdAt := 5 }

/-- A store holding just `sampleListing`. -/
def sampleStore : Store :=
  { listings := [sampleListing], payments := [], phoneUnlocks := [], nextId := 0, now := 9 }

/-- A pending listing whose publish payment is confirmed. -/
def pendingConfirmedListing : Listing :=
  { sampleListing with id := "L2", status := "pending", paymentStatus := "confirmed" }

/-- A pending listing whose publish payment is still pending. -/
def pendingPendingListing : Listing :=
  { sampleListing with id := "L3", status := "pending", paymentStatus := "pending" }

/-- A rejected listing. -/
def rejectedListing : Listing :=
  { sampleListing with id := "L4", status := "rejected" }

/-- A store mixing the four status combinations. -/
def mixedStore : Store :=
  { listings := [sampleListing, pendingConfirmedListing, pendingPendingListing, rejectedListing],
    payments := [], phoneUnlocks := [], nextId := 0, now := 9 }

/-- A fully populated, valid creation payload supplying no server-assigned
keys. -/
def validPayload : RawListingPayload :=
  { city := some "Kinshasa", commune := some "Gombe", neighborhood := some "Centre",
    rooms := some 3, propertyType := some "apartment", transactionType := some "rent",
    price := some 50000, deposit := none, description := some "spacious flat",
    phone := some "+243900000000", images := some ["/uploads/a.jpg"],
    id := none, status := none, paymentStatus := none, featured := none, createdAt := none }

/-!
General lemmas about the list-level building blocks.
-/

/-- Membership is preserved by one descending insertion. -/
theorem mem_insertDesc (a l : Listing) (xs : List Listing) :
    a ∈ insertDesc l xs ↔ a = l ∨ a ∈ xs := by
  induction xs with
  | nil => simp [insertDesc]
  | cons x xs ih =>
    by_cases h : l.createdAt ≤ x.createdAt <;> simp [insertDesc, h, ih]
    tauto

/-- Sorting newest-first is a permutation as far as membership goes. -/
theorem mem_sortByCreatedAtDesc (a : Listing) (xs : List Listing) :
    a ∈ sortByCreatedAtDesc xs ↔ a ∈ xs := by
  induction xs with
  | nil => simp [sortByCreatedAtDesc]
  | cons x xs ih => simp [sortByCreatedAtDesc, mem_insertDesc, ih]

/-- When some element of `ls` satisfies `p`, `filter p ls` has a head, and
that head satisfies `p`. -/
theorem exists_head_filter {α : Type} (p : α → Bool) (ls : List α)
    (h : ∃ a ∈ ls, p a = true) :
    ∃ b, (ls.filter p).head? = some b ∧ p b = true := by
  induction ls with
  | nil => simp at h
  | cons x xs ih =>
    by_cases hx : p x = true
    · exact ⟨x, by simp [List.filter_cons, hx], hx⟩
    · obtain ⟨a, ha, hpa⟩ := h
      rcases List.mem_cons.mp ha with rfl | ha'
      · exact absurd hpa hx
      · obtain ⟨b, hb, hpb⟩ := ih ⟨a, ha', hpa⟩
        refine ⟨b, ?_, hpb⟩
        simpa [List.filter_cons, hx] using hb

/-- A keyed `UPDATE ... RETURNING` returns the updated first match: if the
first row of `ls` with key `id` is `a₀`, then after mapping the
key-preserving update `f` over the matching rows, the first match is
`f a₀`. -/
theorem head_filter_map_update {α : Type} (key : α → String) (f : α → α)
    (hf : ∀ a, key (f a) = key a) (id : String) (ls : List α) (a₀ : α)
    (h : (ls.filter (fun a => key a == id)).head? = some a₀) :
    ((ls.map (fun a => if key a == id then f a else a)).filter
      (fun a => key a == id)).head? = some (f a₀) := by
  induction ls with
  | nil => simp at h
  | cons x xs ih =>
    simp only [List.map_cons, List.filter_cons] at h ⊢
    by_cases hx : (key x == id) = true
    · simp only [hx, if_true, List.head?_cons, Option.some.injEq] at h
      subst h
      simp only [hx, if_true, hf, List.head?_cons]
    · simp only [hx, Bool.false_eq_true, if_false] at h ⊢
      exact ih h

/-!
Claim theorems.
-/

/-- C1: a listing of the store is in the result of `getApprovedListings`
iff its `status` is `"approved"` and its `paymentStatus` is
`"confirmed"`; no other combination of the two fields is included. -/
theorem getApprovedListings_mem_iff (s : Store) (l : Listing) (h : l ∈ s.listings) :
    l ∈ getApprovedListings s ↔ l.status = "approved" ∧ l.paymentStatus = "confirmed" := by
  simp [getApprovedListings, mem_sortByCreatedAtDesc, List.mem_filter, h]

/-- Witness for C1 at the concrete mixed store: the approved+confirmed
listing is included. -/
theorem getApprovedListings_mem_iff_witness :
    sampleListing ∈ getApprovedListings mixedStore :=
  (getApprovedListings_mem_iff mixedStore sampleListing (by simp [mixedStore])).mpr
    ⟨rfl, rfl⟩

/-- C2: `approveAllPendingListings` returns the number of listings with
`status = "pending"` and `paymentStatus = "confirmed"`, sets exactly those
to `"approved"` (row by row), and leaves every listing with
`status = "pending"` and `paymentStatus = "pending"` unchanged. -/
theorem approveAllPendingListings_spec (s : Store) :
    (approveAllPendingListings s).1 = s.listings.countP pendingConfirmed ∧
    ∀ (i : Nat) (l : Listing), s.listings[i]? = some l →
      ((approveAllPendingListings s).2.listings[i]? =
        some (if pendingConfirmed l then { l with status := "approved" } else l)) ∧
      (¬ pendingConfirmed l = true → (approveAllPendingListings s).2.listings[i]? = some l) ∧
      (l.status = "pending" → l.paymentStatus = "pending" →
        (approveAllPendingListings s).2.listings[i]? = some l) := by
  constructor
  · rw [List.countP_eq_length_filter]
    rfl
  · intro i l h
    have hmap : (approveAllPendingListings s).2.listings[i]? =
        some (if pendingConfirmed l then { l with status := "approved" } else l) := by
      simp [approveAllPendingListings, List.getElem?_map, h]
    refine ⟨hmap, ?_, ?_⟩
    · intro hcond
      simpa [hcond] using hmap
    · intro hst hps
      have hcond : pendingConfirmed l = false := by
        simp [pendingConfirmed, hst, hps]
      simpa [hcond] using hmap

/-- Witness for C2 at the concrete mixed store: the pending+confirmed
listing at index 1 is transitioned to approved, the pending+pending one at
index 2 stays, and the count is 1. -/
theorem approveAllPendingListings_spec_witness :
    (approveAllPendingListings mixedStore).1 = 1 ∧
    (approveAllPendingListings mixedStore).2.listings[1]? =
      some { pendingConfirmedListing with status := "approved" } ∧
    (approveAllPendingListings mixedStore).2.listings[2]? = some pendingPendingListing := by
  have h := approveAllPendingListings_spec mixedStore
  refine ⟨?_, ?_, ?_⟩
  · rw [h.1]; rfl
  · have := (h.2 1 pendingConfirmedListing (by rfl)).1
    simpa [pendingConfirmed, pendingConfirmedListing, sampleListing] using this
  · exact (h.2 2 pendingPendingListing (by rfl)).2.2 rfl rfl

/-- C9: `updateListingStatus` touches only the `status` field of the rows
whose id matches: every other field of the matched listing, every other
listing, and the payments and phone-unlock tables are unchanged. -/
theorem updateListingStatus_frame (s : Store) (id st : String) :
    (updateListingStatus s id st).2.payments = s.payments ∧
    (updateListingStatus s id st).2.phoneUnlocks = s.phoneUnlocks ∧
    (updateListingStatus s id st).2.listings.length = s.listings.length ∧
    ∀ (i : Nat) (l : Listing), s.listings[i]? = some l →
      ∃ l', (updateListingStatus s id st).2.listings[i]? = some l' ∧
        l'.id = l.id ∧ l'.city = l.city ∧ l'.commune = l.commune ∧
        l'.neighborhood = l.neighborhood ∧ l'.rooms = l.rooms ∧
        l'.propertyType = l.propertyType ∧ l'.transactionType = l.transactionType ∧
        l'.price = l.price ∧ l'.deposit = l.deposit ∧ l'.description = l.description ∧
        l'.phone = l.phone ∧ l'.images = l.images ∧ l'.paymentStatus = l.paymentStatus ∧
        l'.featured = l.featured ∧ l'.createdAt = l.createdAt ∧
        (l.id ≠ id → l' = l) ∧ (l.id = id → l'.status = st) := by
  refine ⟨rfl, rfl, by simp [updateListingStatus, setListingStatus], ?_⟩
  intro i l h
  refine ⟨if l.id == id then { l with status := st } else l, ?_, ?_⟩
  · simp [updateListingStatus, setListingStatus, List.getElem?_map, h]
  · by_cases hid : l.id = id
    · simp [hid]
    · simp [hid]

/-- Witness for C9 at the concrete mixed store: rejecting listing L4
leaves its other fields, the other rows and the other tables alone. -/
theorem updateListingStatus_frame_witness :
    (updateListingStatus mixedStore "L4" "x").2.payments = mixedStore.payments ∧
    ∃ l', (updateListingStatus mixedStore "L4" "x").2.listings[3]? = some l' ∧
      l'.city = rejectedListing.city := by
  have h := updateListingStatus_frame mixedStore "L4" "x"
  refine ⟨h.1, ?_⟩
  obtain ⟨l', hget, hfields⟩ := h.2.2.2 3 rejectedListing (by rfl)
  exact ⟨l', hget, hfields.2.1⟩

/-- C10: the storage layer checks status strings against no enum: for any
string `st` whatever and any id present in the store, `updateListingStatus`
and `updateListingPaymentStatus` both succeed and return a listing whose
corresponding field equals `st`. -/
theorem updateListing_no_enum_check (s : Store) (id st : String)
    (h : ∃ l ∈ s.listings, l.id = id) :
    (∃ l', (updateListingStatus s id st).1 = some l' ∧ l'.status = st) ∧
    (∃ l', (updateListingPaymentStatus s id st).1 = some l' ∧ l'.paymentStatus = st) := by
  obtain ⟨l, hl, hid⟩ := h
  obtain ⟨b, hb, hpb⟩ :=
    exists_head_filter (fun l : Listing => l.id == id) s.listings ⟨l, hl, by simp [hid]⟩
  constructor
  · refine ⟨{ b with status := st }, ?_, rfl⟩
    exact head_filter_map_update Listing.id (fun l => { l with status := st })
      (fun _ => rfl) id s.listings b hb
  · refine ⟨{ b with paymentStatus := st }, ?_, rfl⟩
    exact head_filter_map_update Listing.id (fun l => { l with paymentStatus := st })
      (fun _ => rfl) id s.listings b hb

/-- Witness for C10: the string "banana" is outside both enums yet both
updates succeed on the concrete store. -/
theorem updateListing_no_enum_check_witness :
    ∃ l', (updateListingStatus sampleStore "L1" "banana").1 = some l' ∧
      l'.status = "banana" :=
  (updateListing_no_enum_check sampleStore "L1" "banana"
    ⟨sampleListing, by simp [sampleStore], rfl⟩).1

/-- C3: confirming a payment that exists sets its status to `"confirmed"`
(both in the response and in the store); the listing cascade happens
exactly when the payment's type is `"publish"` and its `listingId` is
present, and otherwise — in particular for an unlock payment with no
`listingId` — no listing changes. -/
theorem apiConfirmPayment_spec (s : Store) (pid : String) (p₀ : Payment)
    (h : getPayment s pid = some p₀) :
    (apiConfirmPayment s pid).1 = some { p₀ with status := "confirmed" } ∧
    getPayment (apiConfirmPayment s pid).2 pid = some { p₀ with status := "confirmed" } ∧
    (∀ lid, p₀.listingId = some lid → p₀.ptype = "publish" →
      (apiConfirmPayment s pid).2.listings =
        setListingPaymentStatus lid "confirmed" s.listings) ∧
    ((p₀.listingId = none ∨ p₀.ptype ≠ "publish") →
      (apiConfirmPayment s pid).2.listings = s.listings) := by
  have hupd := head_filter_map_update Payment.id (fun p => { p with status := "confirmed" })
    (fun _ => rfl) pid s.payments p₀ (by simpa [getPayment] using h)
  dsimp only at hupd
  simp only [apiConfirmPayment, updatePaymentStatus]
  rw [hupd]
  dsimp only
  cases hlid : p₀.listingId with
  | none =>
    rw [hlid] at hupd
    dsimp only
    refine ⟨rfl, ?_, ?_, fun _ => rfl⟩
    · simpa [getPayment] using hupd
    · intro lid hlid'
      exact absurd hlid' (by simp)
  | some lid =>
    rw [hlid] at hupd
    by_cases hty : p₀.ptype = "publish"
    · rw [hty] at hupd
      simp only [hty, beq_self_eq_true, if_true]
      refine ⟨?_, ?_, ?_, ?_⟩
      · trivial
      · simpa [getPayment, updateListingPaymentStatus] using hupd
      · intro lid' hlid' _
        cases hlid'
        simp [updateListingPaymentStatus]
      · intro hcase
        rcases hcase with hlid' | hty'
        · exact absurd hlid' (by simp)
        · exact absurd rfl hty'
    · have htyb : (p₀.ptype == "publish") = false := by
        simpa using hty
      simp only [htyb, Bool.false_eq_true, if_false]
      refine ⟨?_, ?_, ?_, ?_⟩
      · trivial
      · simpa [getPayment] using hupd
      · intro lid' hlid' htyp
        exact absurd htyp hty
      · exact fun _ => trivial

/-- A payments fixture: one publish payment linked to the pending
listing L2 and one standalone unlock payment. -/
def paidStore : Store :=
  { listings := [pendingPendingListing],
    payments :=
      [ { id := "P1", listingId := some "L3", ptype := "publish", amount := 1500,
          status := "pending", createdAt := 6 },
        { id := "P2", listingId := none, ptype := "unlock", amount := 2500,
          status := "pending", createdAt := 7 } ],
    phoneUnlocks := [], nextId := 0, now := 9 }

/-- Witness for C3 at the concrete store: confirming the unlock payment P2
changes no listing. -/
theorem apiConfirmPayment_spec_witness :
    (apiConfirmPayment paidStore "P2").2.listings = paidStore.listings :=
  (apiConfirmPayment_spec paidStore "P2"
    { id := "P2", listingId := none, ptype := "unlock", amount := 2500,
      status := "pending", createdAt := 7 } rfl).2.2.2 (Or.inl rfl)

/-- A store holding just the rejected listing L4. -/
def rejectedOnlyStore : Store :=
  { listings := [rejectedListing], payments := [], phoneUnlocks := [], nextId := 0, now := 0 }

/-- Counterexample to C5: the admin approve endpoint moves a listing whose
status is `"rejected"` straight to `"approved"` — `rejected` is not
terminal. -/
theorem status_not_terminal_counterexample :
    rejectedListing.status = "rejected" ∧
    ((apiApproveListing rejectedOnlyStore "L4").2.listings.map Listing.status) =
      ["approved"] :=
  ⟨rfl, rfl⟩

/-- C5 amended: the approve and reject endpoints set the status
unconditionally — whatever the current status of the matched listing
(including `"approved"` or `"rejected"`), approve sets it to `"approved"`
and reject to `"rejected"`; no status is terminal. -/
theorem approveReject_unconditional (s : Store) (id : String) (i : Nat) (l : Listing)
    (h : s.listings[i]? = some l) (hid : l.id = id) :
    (apiApproveListing s id).2.listings[i]? = some { l with status := "approved" } ∧
    (apiRejectListing s id).2.listings[i]? = some { l with status := "rejected" } := by
  constructor <;>
    simp [apiApproveListing, apiRejectListing, updateListingStatus, setListingStatus,
      List.getElem?_map, h, hid]

/-- Witness for the amended C5: re-approving the rejected listing L4. -/
theorem approveReject_unconditional_witness :
    (apiApproveListing rejectedOnlyStore "L4").2.listings[0]? =
      some { rejectedListing with status := "approved" } :=
  (approveReject_unconditional rejectedOnlyStore "L4" 0 rejectedListing rfl rfl).1

/-- The valid payload with an empty-string city. -/
def emptyCityPayload : RawListingPayload :=
  { validPayload with city := some "" }

/-- Counterexample to C4: a payload whose `city` is the empty string is
accepted — `createInsertSchema` only checks presence of the text columns,
not non-emptiness. -/
theorem emptyString_accepted_counterexample :
    emptyCityPayload.city = some "" ∧
    (parseInsertListing emptyCityPayload).isSome = true :=
  ⟨rfl, rfl⟩

set_option maxHeartbeats 2000000 in
/-- C4 amended: validation fails whenever any of the required keys (city,
commune, neighborhood, propertyType, transactionType, description, phone,
rooms, price, images) is missing, or rooms < 1, or price < 1, or the
images sequence is empty; empty strings in the text fields are accepted. -/
theorem parseInsertListing_rejects (p : RawListingPayload)
    (h : p.city = none ∨ p.commune = none ∨ p.neighborhood = none ∨
      p.propertyType = none ∨ p.transactionType = none ∨ p.description = none ∨
      p.phone = none ∨ p.rooms = none ∨ p.price = none ∨ p.images = none ∨
      (∃ r, p.rooms = some r ∧ r < 1) ∨ (∃ q, p.price = some q ∧ q < 1) ∨
      p.images = some []) :
    parseInsertListing p = none := by
  rcases h with h | h | h | h | h | h | h | h | h | h | ⟨r, hr, hlt⟩ | ⟨q, hq, hlt⟩ | h
  · simp [parseInsertListing, h]
  · simp [parseInsertListing, h]
  · simp [parseInsertListing, h]
  · simp [parseInsertListing, h]
  · simp [parseInsertListing, h]
  · simp [parseInsertListing, h]
  · simp [parseInsertListing, h]
  · simp [parseInsertListing, h]
  · simp [parseInsertListing, h]
  · simp [parseInsertListing, h]
  · have hnot : ¬ ((1 : Int) ≤ r) := by omega
    simp [parseInsertListing, hr, hnot]
  · have hnot : ¬ ((1 : Int) ≤ q) := by omega
    simp [parseInsertListing, hq, hnot]
  · simp [parseInsertListing, h]

/-- The valid payload with the city key missing. -/
def missingCityPayload : RawListingPayload :=
  { validPayload with city := none }

/-- Witness for the amended C4: a payload missing `city` is rejected. -/
theorem parseInsertListing_rejects_witness :
    parseInsertListing missingCityPayload = none :=
  parseInsertListing_rejects missingCityPayload (Or.inl rfl)

/-- The valid payload additionally supplying every server-assigned key. -/
def serverFieldsPayload : RawListingPayload :=
  { validPayload with
    id := some "evil", status := some "approved",
    paymentStatus := some "confirmed", featured := some true, createdAt := some 0 }

/-- Counterexample to C6: a payload supplying `id`, `status`,
`paymentStatus`, `featured` and `createdAt` is accepted, not rejected —
zod strips unknown keys silently. -/
theorem serverFields_accepted_counterexample :
    serverFieldsPayload.id = some "evil" ∧
    serverFieldsPayload.status = some "approved" ∧
    (parseInsertListing serverFieldsPayload).isSome = true :=
  ⟨rfl, rfl, rfl⟩

/-- C6 amended: server-assigned keys supplied by the caller are silently
stripped: the outcome of validation never depends on them, and the
accepted record (which has no such fields) is unchanged by their
presence. -/
theorem parseInsertListing_ignores_server_fields (p : RawListingPayload)
    (i st ps : Option String) (fe : Option Bool) (ca : Option Nat) :
    parseInsertListing
      { p with
        id := i, status := st, paymentStatus := ps,
        featured := fe, createdAt := ca } = parseInsertListing p := by
  cases p
  rfl

/-- C7: with zero images the create-listing endpoint fails with the
validation error; with one to ten images and a body the schema accepts it
returns a listing with `status = "pending"`, `paymentStatus = "pending"`,
`featured = false` plus a payment of type `"publish"` and amount 1500
linked to the created listing's id. -/
theorem apiCreateListing_spec (s : Store) (files : List String) (body : RawListingPayload) :
    (apiCreateListing s [] body = (.validationError "Au moins une image est requise", s)) ∧
    (1 ≤ files.length → files.length ≤ 10 →
      ∀ d : InsertListing,
        parseInsertListing
          { body with images := some (files.map (fun f => "/uploads/" ++ f)) } = some d →
        ∃ l p, (apiCreateListing s files body).1 = .ok l p ∧
          l.status = "pending" ∧ l.paymentStatus = "pending" ∧ l.featured = false ∧
          p.ptype = "publish" ∧ p.amount = 1500 ∧ p.listingId = some l.id) := by
  constructor
  · simp [apiCreateListing]
  · intro h1 h10 d hd
    have hgt : ¬ (10 < files.length) := by omega
    have hne : ¬ (files.length = 0) := by omega
    refine ⟨(createListing s d).1,
      (createPayment (createListing s d).2
        { listingId := some (createListing s d).1.id, ptype := "publish",
          amount := 1500 }).1, ?_, rfl, rfl, rfl, rfl, rfl, rfl⟩
    unfold apiCreateListing
    rw [if_neg hgt, if_neg hne]
    simp only [hd, createListing, createPayment]

/-- Witness for C7 at a concrete one-image upload. -/
theorem apiCreateListing_spec_witness :
    ∃ l p, (apiCreateListing sampleStore ["a.jpg"] validPayload).1 = .ok l p ∧
      l.status = "pending" ∧ l.paymentStatus = "pending" ∧ l.featured = false ∧
      p.ptype = "publish" ∧ p.amount = 1500 ∧ p.listingId = some l.id :=
  (apiCreateListing_spec sampleStore ["a.jpg"] validPayload).2 (by decide) (by decide)
    { city := "Kinshasa", commune := "Gombe", neighborhood := "Centre", rooms := 3,
      propertyType := "apartment", transactionType := "rent", price := 50000,
      deposit := none, description := "spacious flat", phone := "+243900000000",
      images := ["/uploads/a.jpg"] } rfl

/-- C8: a valid phone-unlock request creates the `PhoneUnlock` record and
then a standalone payment of type `"unlock"`, amount 2500, with no
`listingId`. -/
theorem apiPhoneUnlock_spec (s : Store) (body : RawUnlockPayload) (lid : String)
    (h : parseInsertPhoneUnlock body = some lid) :
    ∃ u p s', apiPhoneUnlock s body = (.ok u p, s') ∧
      u.listingId = lid ∧ u.paymentStatus = "pending" ∧
      s'.phoneUnlocks = s.phoneUnlocks ++ [u] ∧
      p.ptype = "unlock" ∧ p.amount = 2500 ∧ p.listingId = none ∧
      s'.payments = s.payments ++ [p] := by
  simp only [apiPhoneUnlock, h]
  exact ⟨_, _, _, rfl, rfl, rfl, rfl, rfl, rfl, rfl, rfl⟩

/-- A concrete phone-unlock request body for listing L1. -/
def sampleUnlockBody : RawUnlockPayload :=
  { listingId := some "L1", id := none, paymentStatus := none, createdAt := none }

/-- Witness for C8 at the concrete store and body. -/
theorem apiPhoneUnlock_spec_witness :
    ∃ u p s', apiPhoneUnlock sampleStore sampleUnlockBody = (.ok u p, s') ∧
      u.listingId = "L1" ∧ u.paymentStatus = "pending" ∧
      s'.phoneUnlocks = sampleStore.phoneUnlocks ++ [u] ∧
      p.ptype = "unlock" ∧ p.amount = 2500 ∧ p.listingId = none ∧
      s'.payments = sampleStore.payments ++ [p] :=
  apiPhoneUnlock_spec sampleStore sampleUnlockBody "L1" rfl

end Congo
